import Mathlib

/-!
# Verification of the homebox_labels label-template engine

A shallow embedding of the core of the `homebox_labels` repository: the
text-fit engine (`label_templates/utils.py`), the Avery 5163 grid templates
(`label_templates/avery5163/avery5163.py`, `label_templates/avery5163_vert.py`),
the Brother P-Touch tape template (`label_templates/ptouch.py`), the option
handling (`label_templates/base.py`, `label_templates/avery5163.py`) and the
render pipeline (`label_generation.py`).

Conventions of the embedding:
* Python floats are modelled as rationals (`ℚ`); the source performs no
  operation whose real-valued result differs from the claims at stake.
* A font (reportlab `font_name` passed to `stringWidth`) is modelled as its
  width table, a function `Char → ℚ` giving the glyph width in 1/1000 em
  units; reportlab's `stringWidth(text, font_name, font_size)` is the sum of
  the glyph widths scaled by `font_size / 1000`, which is additive in the
  characters of `text` exactly as modelled here.
* Python strings are Lean `String`s; `str.split()` / `str.strip()` /
  `" ".join` are modelled by `splitWords` / `String.trim` / `joinSp`.
* Functions that can raise are modelled with `Except String`.
-/

/-- A font's width table: glyph width of each character in 1/1000 em. -/
abbrev CharWidths := Char → ℚ

/-- reportlab `pdfmetrics.stringWidth(text, font_name, font_size)`:
sum of the per-character widths, scaled by the font size. -/
def stringWidth (text : String) (font_name : CharWidths) (font_size : ℚ) : ℚ :=
  font_size * ((text.data.map font_name).sum) / 1000

/-- Worker for `splitWords`: scans the characters, accumulating the current
word in reverse; whitespace closes the current word (if any). -/
def splitWordsGo : List Char → List Char → List String
  | [], acc => if acc = [] then [] else [String.mk acc.reverse]
  | c :: cs, acc =>
    if c.isWhitespace then
      if acc = [] then splitWordsGo cs []
      else String.mk acc.reverse :: splitWordsGo cs []
    else splitWordsGo cs (c :: acc)

/-- Python `str.split()` with no arguments: the maximal runs of
non-whitespace characters, in order; leading/trailing/repeated whitespace
produces no empty words. -/
def splitWords (text : String) : List String := splitWordsGo text.data []

/-- Python `" ".join(ws)`. -/
def joinSp : List String → String
  | [] => ""
  | [w] => w
  | w :: rest => w ++ " " ++ joinSp rest

/-! ## `shrink_fit` (`label_templates/utils.py`, lines 118-135)

```python
def shrink_fit(text, max_width_pt, max_font, min_font, font_name, step=0.5):
    size = max_font
    step = max(step, 0.25)
    while (size >= min_font and stringWidth(text, font_name, size) > max_width_pt):
        size -= step
    return max(size, min_font)
```

The `while` loop is modelled by well-founded recursion on the number of
remaining decrements.  The loop diverges for `step ≤ 0`; since `shrink_fit`
clamps `step` to at least `0.25` before the loop, the embedding guards the
recursion on `0 < step` (the guard is always true at the call site). -/

/-- The `while` loop of `shrink_fit`: decrement `size` by `step` while it is
at least `min_font` and the text is too wide at `size`. -/
def shrinkFitGo (measureAt : ℚ → ℚ) (max_width_pt min_font step : ℚ) (size : ℚ) : ℚ :=
  if h : min_font ≤ size ∧ max_width_pt < measureAt size ∧ 0 < step then
    shrinkFitGo measureAt max_width_pt min_font step (size - step)
  else
    size
termination_by (⌈(size - min_font) / step⌉ + 1).toNat
decreasing_by
  have hmf : min_font ≤ size := h.1
  have hstep : 0 < step := h.2.2
  have hq : 0 ≤ (size - min_font) / step := div_nonneg (by linarith) hstep.le
  have h1 : (size - step - min_font) / step = (size - min_font) / step - 1 := by
    field_simp
    ring
  have h2 : (0 : ℤ) ≤ ⌈(size - min_font) / step⌉ := Int.ceil_nonneg hq
  rw [h1, Int.ceil_sub_one]
  omega

/-- `shrink_fit` from `label_templates/utils.py`. -/
def shrink_fit (text : String) (font_name : CharWidths)
    (max_width_pt max_font min_font : ℚ) (step : ℚ := 1/2) : ℚ :=
  max (shrinkFitGo (fun size => stringWidth text font_name size)
        max_width_pt min_font (max step (1/4)) max_font) min_font

theorem shrinkFitGo_le_self (measureAt : ℚ → ℚ) (max_width_pt min_font step size : ℚ) :
    shrinkFitGo measureAt max_width_pt min_font step size ≤ size := by
  induction size using shrinkFitGo.induct measureAt max_width_pt min_font step with
  | case1 size h ih =>
      rw [shrinkFitGo, dif_pos h]
      have hstep : 0 < step := h.2.2
      linarith
  | case2 size h =>
      rw [shrinkFitGo, dif_neg h]

theorem shrinkFitGo_exit (measureAt : ℚ → ℚ) (max_width_pt min_font step size : ℚ) :
    ¬(min_font ≤ shrinkFitGo measureAt max_width_pt min_font step size ∧
      max_width_pt < measureAt (shrinkFitGo measureAt max_width_pt min_font step size) ∧
      0 < step) := by
  induction size using shrinkFitGo.induct measureAt max_width_pt min_font step with
  | case1 size h ih =>
      rw [shrinkFitGo, dif_pos h]
      exact ih
  | case2 size h =>
      rw [shrinkFitGo, dif_neg h]
      exact h

theorem shrinkFitGo_of_fits (measureAt : ℚ → ℚ) (max_width_pt min_font step size : ℚ)
    (hfit : measureAt size ≤ max_width_pt) :
    shrinkFitGo measureAt max_width_pt min_font step size = size := by
  rw [shrinkFitGo, dif_neg]
  intro h
  exact absurd h.2.1 (not_lt.mpr hfit)

/-- **C5.** `shrink_fit` returns a size in `[min_font, max_font]` when
`min_font ≤ max_font`; when the text already fits at `max_font` it returns
exactly `max_font`; and when the text overflows at every size down to
`min_font` it still returns (the floor `min_font`) rather than raising:
the embedding is a total function. -/
theorem shrink_fit_spec (text : String) (font_name : CharWidths)
    (max_width_pt max_font min_font step : ℚ) (h : min_font ≤ max_font) :
    min_font ≤ shrink_fit text font_name max_width_pt max_font min_font step ∧
    shrink_fit text font_name max_width_pt max_font min_font step ≤ max_font ∧
    (stringWidth text font_name max_font ≤ max_width_pt →
      shrink_fit text font_name max_width_pt max_font min_font step = max_font) ∧
    ((∀ s, min_font ≤ s → max_width_pt < stringWidth text font_name s) →
      shrink_fit text font_name max_width_pt max_font min_font step = min_font) := by
  unfold shrink_fit
  refine ⟨le_max_right _ _, ?_, ?_, ?_⟩
  · exact max_le (shrinkFitGo_le_self _ _ _ _ _) h
  · intro hfit
    rw [shrinkFitGo_of_fits _ _ _ _ _ hfit]
    exact max_eq_left h
  · intro hover
    have hexit := shrinkFitGo_exit (fun size => stringWidth text font_name size)
      max_width_pt min_font (max step (1/4)) max_font
    have hstep : (0 : ℚ) < max step (1/4) :=
      lt_of_lt_of_le (by norm_num) (le_max_right _ _)
    by_cases hge : min_font ≤ shrinkFitGo (fun size => stringWidth text font_name size)
        max_width_pt min_font (max step (1/4)) max_font
    · exact absurd ⟨hge, hover _ hge, hstep⟩ hexit
    · exact max_eq_right (le_of_lt (not_le.mp hge))

/-- A constant-width font used for concrete inputs: every glyph 1000/1000 em,
so `stringWidth s thisFont size = size * s.length`. -/
def wideFont : CharWidths := fun _ => 1000

theorem stringWidth_wideFont (s : String) (size : ℚ) :
    stringWidth s wideFont size = size * s.length := by
  have h : ∀ l : List Char, ((l.map fun _ => (1000 : ℚ)).sum) = 1000 * l.length := by
    intro l
    induction l with
    | nil => simp
    | cons c cs ih => simp [ih]; ring
  unfold stringWidth wideFont
  rw [h]
  have hlen : ((s.length : ℚ)) = ((s.data.length : ℕ) : ℚ) := rfl
  rw [hlen]
  ring

/-- Witness for C5: at `text = "mm"`, `max_width = 10`, `max_font = 28`,
`min_font = 8`, the text overflows at every size `≥ 8` (width `= 2·size ≥ 16`),
and `shrink_fit` returns the floor `8`. -/
theorem shrink_fit_spec_witness :
    shrink_fit "mm" wideFont 10 28 8 (1/2) = 8 :=
  (shrink_fit_spec "mm" wideFont 10 28 8 (1/2) (by norm_num)).2.2.2
    (fun s hs => by
      have h1 : "mm".length = 2 := by decide
      rw [stringWidth_wideFont, h1]
      push_cast
      linarith)

/-! ## `wrap_text_to_width` (`label_templates/utils.py`, lines 70-115)

```python
def wrap_text_to_width(text, font_name, font_size, max_width_pt):
    if not text or max_width_pt <= 0:
        return []
    words = text.split()
    if not words:
        return []
    lines, current = [], []
    for word in words:
        tentative = " ".join(current + [word]) if current else word
        if stringWidth(tentative, font_name, font_size) <= max_width_pt:
            current.append(word); continue
        if current:
            lines.append(" ".join(current)); current = [word]; continue
        partial = ""                     # character-level wrap of the word
        for ch in word:
            candidate = partial + ch
            if stringWidth(candidate, font_name, font_size) > max_width_pt:
                if partial: lines.append(partial); partial = ch
                else: partial = ch
            else: partial = candidate
        if partial: current = [partial]
    if current:
        lines.append(" ".join(current))
    return lines
```

`sw` below is the partially applied `stringWidth · font_name font_size`. -/

/-- The character-level inner loop of `wrap_text_to_width`: processes the
characters of an over-wide word, returning the accumulated lines and the
remaining piece (`partial` in the source). -/
def charWrapGo (sw : String → ℚ) (max_width_pt : ℚ) :
    List Char → String → List String → List String × String
  | [], piece, lines => (lines, piece)
  | c :: cs, piece, lines =>
    let candidate := piece.push c
    if max_width_pt < sw candidate then
      if piece ≠ "" then
        charWrapGo sw max_width_pt cs (String.singleton c) (lines ++ [piece])
      else
        charWrapGo sw max_width_pt cs (String.singleton c) lines
    else
      charWrapGo sw max_width_pt cs candidate lines

/-- The word loop of `wrap_text_to_width`. -/
def wrapWordsGo (sw : String → ℚ) (max_width_pt : ℚ) :
    List String → List String → List String → List String
  | [], lines, current =>
    if current ≠ [] then lines ++ [joinSp current] else lines
  | word :: rest, lines, current =>
    let tentative := if current ≠ [] then joinSp (current ++ [word]) else word
    if sw tentative ≤ max_width_pt then
      wrapWordsGo sw max_width_pt rest lines (current ++ [word])
    else if current ≠ [] then
      wrapWordsGo sw max_width_pt rest (lines ++ [joinSp current]) [word]
    else
      let cw := charWrapGo sw max_width_pt word.data "" lines
      if cw.2 ≠ "" then
        wrapWordsGo sw max_width_pt rest cw.1 [cw.2]
      else
        wrapWordsGo sw max_width_pt rest cw.1 []

/-- `wrap_text_to_width` from `label_templates/utils.py`. -/
def wrap_text_to_width (text : String) (font_name : CharWidths)
    (font_size max_width_pt : ℚ) : List String :=
  if text = "" ∨ max_width_pt ≤ 0 then []
  else
    let words := splitWords text
    if words = [] then []
    else wrapWordsGo (fun s => stringWidth s font_name font_size) max_width_pt words [] []

/-- The property each produced line actually satisfies: it fits the width
budget, or it is one whole word of the input, or it is a single character. -/
def LineOk (sw : String → ℚ) (max_width_pt : ℚ) (ws : List String) (l : String) : Prop :=
  sw l ≤ max_width_pt ∨ l ∈ ws ∨ l.length = 1

theorem charWrapGo_ok (sw : String → ℚ) (max_width_pt : ℚ) (ws : List String)
    (cs : List Char) (piece : String) (lines : List String)
    (hlines : ∀ l ∈ lines, LineOk sw max_width_pt ws l)
    (hpiece : piece = "" ∨ sw piece ≤ max_width_pt ∨ piece.length = 1) :
    (∀ l ∈ (charWrapGo sw max_width_pt cs piece lines).1, LineOk sw max_width_pt ws l) ∧
    ((charWrapGo sw max_width_pt cs piece lines).2 = "" ∨
      sw (charWrapGo sw max_width_pt cs piece lines).2 ≤ max_width_pt ∨
      (charWrapGo sw max_width_pt cs piece lines).2.length = 1) := by
  induction cs generalizing piece lines with
  | nil => exact ⟨hlines, hpiece⟩
  | cons c cs ih =>
      show (∀ l ∈ (charWrapGo sw max_width_pt (c :: cs) piece lines).1, _) ∧ _
      rw [charWrapGo]
      by_cases hover : max_width_pt < sw (piece.push c)
      · rw [if_pos hover]
        by_cases hne : piece ≠ ""
        · rw [if_pos hne]
          refine ih (String.singleton c) (lines ++ [piece]) ?_ ?_
          · intro l hl
            rcases List.mem_append.mp hl with h | h
            · exact hlines l h
            · rcases List.mem_singleton.mp h with rfl
              rcases hpiece with h0 | h0 | h0
              · exact absurd h0 hne
              · exact Or.inl h0
              · exact Or.inr (Or.inr h0)
          · right; right; rfl
        · rw [if_neg hne]
          exact ih (String.singleton c) lines hlines (Or.inr (Or.inr rfl))
      · rw [if_neg hover]
        exact ih (piece.push c) lines hlines (Or.inr (Or.inl (not_lt.mp hover)))

theorem wrapWordsGo_ok (sw : String → ℚ) (max_width_pt : ℚ) (ws : List String)
    (rest lines current : List String)
    (hlines : ∀ l ∈ lines, LineOk sw max_width_pt ws l)
    (hcur : current = [] ∨ LineOk sw max_width_pt ws (joinSp current))
    (hsub : ∀ w ∈ rest, w ∈ ws) :
    ∀ l ∈ wrapWordsGo sw max_width_pt rest lines current, LineOk sw max_width_pt ws l := by
  induction rest generalizing lines current with
  | nil =>
      intro l hl
      rw [wrapWordsGo] at hl
      by_cases hne : current ≠ []
      · rw [if_pos hne] at hl
        rcases List.mem_append.mp hl with h | h
        · exact hlines l h
        · rcases List.mem_singleton.mp h with rfl
          rcases hcur with h0 | h0
          · exact absurd h0 hne
          · exact h0
      · rw [if_neg hne] at hl
        exact hlines l hl
  | cons word rest ih =>
      intro l hl
      rw [wrapWordsGo] at hl
      have hword : word ∈ ws := hsub word (List.mem_cons_self _ _)
      have hsub2 : ∀ w ∈ rest, w ∈ ws := fun w hw => hsub w (List.mem_cons_of_mem _ hw)
      by_cases hfit :
          sw (if current ≠ [] then joinSp (current ++ [word]) else word) ≤ max_width_pt
      · rw [if_pos hfit] at hl
        refine ih lines (current ++ [word]) hlines (Or.inr ?_) hsub2 l hl
        by_cases hne : current ≠ []
        · rw [if_pos hne] at hfit
          exact Or.inl hfit
        · have : current = [] := not_not.mp hne
          subst this
          rw [if_neg hne] at hfit
          exact Or.inl (by simpa [joinSp] using hfit)
      · rw [if_neg hfit] at hl
        by_cases hne : current ≠ []
        · rw [if_pos hne] at hl
          refine ih (lines ++ [joinSp current]) [word] ?_ ?_ hsub2 l hl
          · intro l2 hl2
            rcases List.mem_append.mp hl2 with h | h
            · exact hlines l2 h
            · rcases List.mem_singleton.mp h with rfl
              rcases hcur with h0 | h0
              · exact absurd h0 hne
              · exact h0
          · exact Or.inr (Or.inr (Or.inl (by simpa [joinSp] using hword)))
        · rw [if_neg hne] at hl
          have hcw := charWrapGo_ok sw max_width_pt ws word.data "" lines hlines (Or.inl rfl)
          by_cases hp : (charWrapGo sw max_width_pt word.data "" lines).2 ≠ ""
          · rw [if_pos hp] at hl
            refine ih _ _ hcw.1 (Or.inr ?_) hsub2 l hl
            rcases hcw.2 with h0 | h0 | h0
            · exact absurd h0 hp
            · exact Or.inl (by simpa [joinSp] using h0)
            · exact Or.inr (Or.inr (by simpa [joinSp] using h0))
          · rw [if_neg hp] at hl
            exact ih _ _ hcw.1 (Or.inl rfl) hsub2 l hl

/-- **C1 (amended).** Every line produced by `wrap_text_to_width` measures at
most `max_width_pt` or is a single character or is one whole word of the
input: character-level splitting of an over-wide word happens only when the
word starts a line, while an over-wide word that follows other words on its
line is emitted whole as its own over-wide line. -/
theorem wrap_text_to_width_line_bound (text : String) (font_name : CharWidths)
    (font_size max_width_pt : ℚ) (line : String)
    (hline : line ∈ wrap_text_to_width text font_name font_size max_width_pt) :
    stringWidth line font_name font_size ≤ max_width_pt ∨
    line ∈ splitWords text ∨ line.length = 1 := by
  unfold wrap_text_to_width at hline
  by_cases hguard : text = "" ∨ max_width_pt ≤ 0
  · rw [if_pos hguard] at hline
    exact absurd hline (List.not_mem_nil _)
  · rw [if_neg hguard] at hline
    by_cases hwords : splitWords text = []
    · simp only [hwords, if_pos] at hline
      exact absurd hline (List.not_mem_nil _)
    · simp only [hwords, if_neg, reduceIte] at hline
      exact wrapWordsGo_ok (fun s => stringWidth s font_name font_size) max_width_pt
        (splitWords text) (splitWords text) [] [] (by intro l h; exact absurd h (List.not_mem_nil _))
        (Or.inl rfl) (fun w hw => hw) line hline

/-- Witness for C1: the single word "ab" fits the budget, is returned as the
only line, and satisfies the width bound. -/
theorem wrap_text_to_width_line_bound_witness :
    stringWidth "ab" wideFont 1000 ≤ 2500 ∨
    "ab" ∈ splitWords "ab" ∨ "ab".length = 1 :=
  wrap_text_to_width_line_bound "ab" wideFont 1000 2500 "ab" (by
    norm_num +decide [wrap_text_to_width, wrapWordsGo, charWrapGo, splitWords,
      splitWordsGo, joinSp, stringWidth, wideFont])

/-- **C1 counterexample.** With a uniform 1000-unit font at size 1000
(each character 500 pt wide after the 1/1000 scaling... here: each character
is 1000·1000/1000 = 1000 pt? No: width of a k-character string is 1000·k) and
`max_width = 2500 > 0`, wrapping `"a WWWW"` emits the line `"WWWW"`, which is
4 characters long and measures 4000 > 2500: a word wider than the budget that
does not start its line is NOT split at character level. -/
theorem wrap_text_to_width_counterexample :
    wrap_text_to_width "a WWWW" wideFont 1000 2500 = ["a", "WWWW"] ∧
    (2500 : ℚ) < stringWidth "WWWW" wideFont 1000 ∧
    "WWWW".length = 4 ∧
    (0 : ℚ) < 2500 := by
  refine ⟨?_, ?_, by decide, by norm_num⟩
  · norm_num +decide [wrap_text_to_width, wrapWordsGo, charWrapGo, splitWords,
      splitWordsGo, joinSp, stringWidth, wideFont]
  · rw [stringWidth_wideFont, show "WWWW".length = 4 from by decide]
    norm_num

/-! ## `wrap_text_to_width_multiline` (`label_templates/utils.py`, lines 10-67)

```python
def wrap_text_to_width_multiline(text, font_name, font_size, max_width_pt,
                                 max_height_pt, *, min_font_size=None, step=0.5):
    if not text or max_width_pt <= 0 or max_height_pt <= 0:
        return [], font_size
    min_font = min_font_size if min_font_size is not None else font_size
    min_font = max(min_font, 0.5)
    size = font_size
    while size >= min_font:
        words = text.split()
        if words:
            widest = max(stringWidth(w, font_name, size) for w in words)
            if widest > max_width_pt and size > min_font:
                size -= step; continue
        wrapped = list(wrap_text_to_width(text, font_name, size, max_width_pt))
        if wrapped:
            line_height_est = size * 1.2
            if len(wrapped) * line_height_est <= max_height_pt:
                return wrapped, size
        size -= step
    fallback_lines = list(wrap_text_to_width(text, font_name, min_font,
                                             max_width_pt)) or [text]
    return fallback_lines, min_font
```

Note that the function bounds the result by the *height* budget
`max_height_pt`; it has no `max_lines` parameter, and the post-loop fallback
returns the minimum-font wrapping with no cap at all.  As with `shrink_fit`,
the Python loop diverges for `step ≤ 0`, so the recursion is guarded on
`0 < step` (the guard holds at every call site in the repository, all of
which pass `step=0.5`). -/

/-- The `while` loop of `wrap_text_to_width_multiline`; the `else` branch is
the post-loop fallback. -/
def multilineGo (text : String) (font_name : CharWidths)
    (max_width_pt max_height_pt min_font step : ℚ) (size : ℚ) : List String × ℚ :=
  if h : min_font ≤ size ∧ 0 < step then
    if splitWords text ≠ [] ∧
        max_width_pt <
          (((splitWords text).map (fun w => stringWidth w font_name size)).max?.getD 0) ∧
        min_font < size then
      multilineGo text font_name max_width_pt max_height_pt min_font step (size - step)
    else
      if wrap_text_to_width text font_name size max_width_pt ≠ [] ∧
          ((wrap_text_to_width text font_name size max_width_pt).length : ℚ) *
            (size * (6/5)) ≤ max_height_pt then
        (wrap_text_to_width text font_name size max_width_pt, size)
      else
        multilineGo text font_name max_width_pt max_height_pt min_font step (size - step)
  else
    (if wrap_text_to_width text font_name min_font max_width_pt ≠ [] then
        wrap_text_to_width text font_name min_font max_width_pt
      else [text],
     min_font)
termination_by (⌈(size - min_font) / step⌉ + 1).toNat
decreasing_by
  all_goals
    have hmf : min_font ≤ size := h.1
    have hstep : 0 < step := h.2
    have hq : 0 ≤ (size - min_font) / step := div_nonneg (by linarith) hstep.le
    have h1 : (size - step - min_font) / step = (size - min_font) / step - 1 := by
      field_simp
      ring
    have h2 : (0 : ℤ) ≤ ⌈(size - min_font) / step⌉ := Int.ceil_nonneg hq
    rw [h1, Int.ceil_sub_one]
    omega

/-- `wrap_text_to_width_multiline` from `label_templates/utils.py`. -/
def wrap_text_to_width_multiline (text : String) (font_name : CharWidths)
    (font_size max_width_pt max_height_pt : ℚ) (min_font_size : Option ℚ)
    (step : ℚ := 1/2) : List String × ℚ :=
  if text = "" ∨ max_width_pt ≤ 0 ∨ max_height_pt ≤ 0 then ([], font_size)
  else
    multilineGo text font_name max_width_pt max_height_pt
      (max (min_font_size.getD font_size) (1/2)) step font_size

theorem multilineGo_height_or_floor (text : String) (font_name : CharWidths)
    (max_width_pt max_height_pt min_font step size : ℚ) :
    ((multilineGo text font_name max_width_pt max_height_pt min_font step size).1.length : ℚ) *
        ((multilineGo text font_name max_width_pt max_height_pt min_font step size).2 * (6/5)) ≤
        max_height_pt ∨
    (multilineGo text font_name max_width_pt max_height_pt min_font step size).2 = min_font := by
  induction size using multilineGo.induct text font_name max_width_pt max_height_pt min_font step with
  | case1 size h hcond ih =>
      rw [multilineGo, dif_pos h, if_pos hcond]
      exact ih
  | case2 size h hcond hret =>
      rw [multilineGo, dif_pos h, if_neg hcond, if_pos hret]
      exact Or.inl hret.2
  | case3 size h hcond hret ih =>
      rw [multilineGo, dif_pos h, if_neg hcond, if_neg hret]
      exact ih
  | case4 size h =>
      rw [multilineGo, dif_neg h]
      exact Or.inr rfl

/-- **C2 (amended).** `wrap_text_to_width_multiline` bounds its result by the
*height* budget: either the returned lines fit the estimated block height
(`len · size · 1.2 ≤ max_height_pt`), or the returned size is the effective
minimum font (`max(min_font_size or font_size, 0.5)`), in which case the
post-loop fallback delivered the minimum-font wrapping (or the raw text)
with no cap at all; the empty result covers the empty/degenerate guard. -/
theorem wrap_text_to_width_multiline_height_or_floor (text : String)
    (font_name : CharWidths) (font_size max_width_pt max_height_pt : ℚ)
    (min_font_size : Option ℚ) (step : ℚ) :
    (wrap_text_to_width_multiline text font_name font_size max_width_pt
        max_height_pt min_font_size step).1 = [] ∨
    ((wrap_text_to_width_multiline text font_name font_size max_width_pt
        max_height_pt min_font_size step).1.length : ℚ) *
      ((wrap_text_to_width_multiline text font_name font_size max_width_pt
        max_height_pt min_font_size step).2 * (6/5)) ≤ max_height_pt ∨
    (wrap_text_to_width_multiline text font_name font_size max_width_pt
        max_height_pt min_font_size step).2 =
      max (min_font_size.getD font_size) (1/2) := by
  unfold wrap_text_to_width_multiline
  by_cases hguard : text = "" ∨ max_width_pt ≤ 0 ∨ max_height_pt ≤ 0
  · rw [if_pos hguard]
    exact Or.inl rfl
  · rw [if_neg hguard]
    rcases multilineGo_height_or_floor text font_name max_width_pt max_height_pt
        (max (min_font_size.getD font_size) (1/2)) step font_size with h | h
    · exact Or.inr (Or.inl h)
    · exact Or.inr (Or.inr h)

/-- **C2 counterexample.** With the uniform font at starting size 10,
`max_width = 15`, height budget `max_height = 20` and `min_font_size = 10`,
the text `"a b c d"` wraps to four one-character lines at every probed size,
so the loop exhausts and the fallback returns all four lines at the minimum
font — a block of estimated height `4 · 10 · 1.2 = 48 > 20`: the result is
*not* capped to the budget (nor to any line count) when even the minimum
font cannot satisfy it. -/
theorem wrap_text_to_width_multiline_counterexample :
    wrap_text_to_width_multiline "a b c d" wideFont 10 15 20 (some 10) (1/2) =
      (["a", "b", "c", "d"], 10) ∧
    (20 : ℚ) <
      ((["a", "b", "c", "d"].length : ℚ)) * (10 * (6/5)) := by
  have hw : wrap_text_to_width "a b c d" wideFont 10 15 = ["a", "b", "c", "d"] := by
    norm_num +decide [wrap_text_to_width, wrapWordsGo, charWrapGo, splitWords,
      splitWordsGo, joinSp, stringWidth, wideFont]
  constructor
  · rw [wrap_text_to_width_multiline,
      if_neg (by push_neg; exact ⟨by decide, by norm_num, by norm_num⟩),
      show max (((some (10 : ℚ)).getD 10)) (1/2) = 10 from by norm_num,
      multilineGo, dif_pos (by norm_num : (10 : ℚ) ≤ 10 ∧ (0 : ℚ) < 1/2),
      if_neg (fun hc => absurd hc.2.2 (by norm_num)), hw,
      if_neg (fun hc => absurd hc.2 (by norm_num)),
      show (10 : ℚ) - 1/2 = 19/2 from by norm_num,
      multilineGo, dif_neg (fun hc => absurd hc.1 (by norm_num)), hw,
      if_pos (by decide : (["a", "b", "c", "d"] : List String) ≠ [])]
  · norm_num

/-! ## Geometry (`label_types.py`, lines 20-36) -/

/-- `LabelGeometry` from `label_types.py`: a placement rectangle plus the
page-break flag. -/
structure LabelGeometry where
  left : ℚ
  bottom : ℚ
  right : ℚ
  top : ℚ
  on_new_page : Bool
deriving DecidableEq, Repr

/-- `LabelGeometry.width`: `max(right - left, 0.0)`. -/
def LabelGeometry.width (g : LabelGeometry) : ℚ := max (g.right - g.left) 0

/-- `LabelGeometry.height`: `max(top - bottom, 0.0)`. -/
def LabelGeometry.height (g : LabelGeometry) : ℚ := max (g.top - g.bottom) 0

/-! ## Avery 5163 grid templates

Constants from `label_templates/avery5163/common.py` (the module
`label_templates/avery5163.py` and `label_templates/avery5163_vert.py`
repeat the same values); `inch = 72`, `letter = (8.5*inch, 11*inch)`. -/

namespace Avery5163

def inch : ℚ := 72
def PAGE_SIZE : ℚ × ℚ := ((85/10) * inch, 11 * inch)
def LABEL_W : ℚ := 4 * inch
def LABEL_H : ℚ := 2 * inch
def COLS : ℕ := 2
def ROWS : ℕ := 5
def SLOTS : ℕ := COLS * ROWS
def MARGIN_LEFT : ℚ := (17/100) * inch
def MARGIN_RIGHT : ℚ := (17/100) * inch
def MARGIN_TOP : ℚ := (1/2) * inch
def MARGIN_BOTTOM : ℚ := (1/2) * inch
def H_GAP : ℚ := (16/100) * inch
def V_GAP : ℚ := 0 * inch
def OFFSET_X : ℚ := 0 * inch
def OFFSET_Y : ℚ := 0 * inch

/-- `Template.next_label_geometry` of
`label_templates/avery5163/avery5163.py` (lines 66-85): emits the geometry
of the *current* slot index and advances the index modulo `SLOTS`.  The
mutable `self._slot_index` is modelled by explicit state passing. -/
def next_label_geometry (slot : ℕ) : LabelGeometry × ℕ :=
  let row := slot / COLS
  let col := slot % COLS
  let bottom := PAGE_SIZE.2 - MARGIN_TOP - LABEL_H - (row : ℚ) * (LABEL_H + V_GAP) + OFFSET_Y
  let top := bottom + LABEL_H
  let left := MARGIN_LEFT + (col : ℚ) * (LABEL_W + H_GAP) + OFFSET_X
  let right := left + LABEL_W
  ({ left := left, bottom := bottom, right := right, top := top,
     on_new_page := slot == 0 },
   (slot + 1) % SLOTS)

end Avery5163

namespace Avery5163Vert

open Avery5163 in
/-- `Template.next_label_geometry` of `label_templates/avery5163_vert.py`
(lines 65-84): same grid, no offsets, and the page-break test is written
`slot_index % SLOTS == 0`. -/
def next_label_geometry (slot : ℕ) : LabelGeometry × ℕ :=
  let row := slot / COLS
  let col := slot % COLS
  let bottom := PAGE_SIZE.2 - MARGIN_TOP - LABEL_H - (row : ℚ) * (LABEL_H + V_GAP)
  let top := bottom + LABEL_H
  let left := MARGIN_LEFT + (col : ℚ) * (LABEL_W + H_GAP)
  let right := left + LABEL_W
  ({ left := left, bottom := bottom, right := right, top := top,
     on_new_page := slot % SLOTS == 0 },
   (slot + 1) % SLOTS)

end Avery5163Vert

/-- The slot state after `n` calls to `next`, starting from the state `0`
that `reset()` establishes. -/
def iterateSlots (next : ℕ → LabelGeometry × ℕ) : ℕ → ℕ
  | 0 => 0
  | n + 1 => (next (iterateSlots next n)).2

theorem iterateSlots_avery (n : ℕ) :
    iterateSlots Avery5163.next_label_geometry n = n % Avery5163.SLOTS := by
  induction n with
  | zero => rfl
  | succ n ih =>
      show (Avery5163.next_label_geometry (iterateSlots Avery5163.next_label_geometry n)).2 =
        (n + 1) % Avery5163.SLOTS
      rw [ih]
      show (n % Avery5163.SLOTS + 1) % Avery5163.SLOTS = (n + 1) % Avery5163.SLOTS
      conv_rhs => rw [Nat.add_mod]
      simp [Nat.mod_mod_of_dvd]

theorem iterateSlots_avery_vert (n : ℕ) :
    iterateSlots Avery5163Vert.next_label_geometry n = n % Avery5163.SLOTS := by
  induction n with
  | zero => rfl
  | succ n ih =>
      show (Avery5163Vert.next_label_geometry (iterateSlots Avery5163Vert.next_label_geometry n)).2 =
        (n + 1) % Avery5163.SLOTS
      rw [ih]
      show (n % Avery5163.SLOTS + 1) % Avery5163.SLOTS = (n + 1) % Avery5163.SLOTS
      conv_rhs => rw [Nat.add_mod]
      simp [Nat.mod_mod_of_dvd]

/-- **C3.** For a run started at `reset()` (slot state `0`): the `n+1`-st
call to `next_label_geometry` (of the Avery 5163 grid template and of its
vertical variant) reports `on_new_page` exactly when `n % SLOTS = 0` — true
on call 1, false on calls `2..SLOTS`, true again on call `SLOTS+1`; the
emitted geometry is computed from the pre-transition index `n % SLOTS`; and
the state transition is `slot_index ↦ (slot_index + 1) % SLOTS`. -/
theorem avery_grid_pagination (n : ℕ) :
    ((Avery5163.next_label_geometry (iterateSlots Avery5163.next_label_geometry n)).1.on_new_page
        = true ↔ n % Avery5163.SLOTS = 0) ∧
    (Avery5163.next_label_geometry (iterateSlots Avery5163.next_label_geometry n)).1 =
      (Avery5163.next_label_geometry (n % Avery5163.SLOTS)).1 ∧
    (∀ slot : ℕ, (Avery5163.next_label_geometry slot).2 = (slot + 1) % Avery5163.SLOTS) ∧
    ((Avery5163Vert.next_label_geometry (iterateSlots Avery5163Vert.next_label_geometry n)).1.on_new_page
        = true ↔ n % Avery5163.SLOTS = 0) ∧
    (Avery5163Vert.next_label_geometry (iterateSlots Avery5163Vert.next_label_geometry n)).1 =
      (Avery5163Vert.next_label_geometry (n % Avery5163.SLOTS)).1 ∧
    (∀ slot : ℕ, (Avery5163Vert.next_label_geometry slot).2 = (slot + 1) % Avery5163.SLOTS) := by
  refine ⟨?_, ?_, fun slot => rfl, ?_, ?_, fun slot => rfl⟩
  · rw [iterateSlots_avery]
    show ((n % Avery5163.SLOTS == 0) = true ↔ n % Avery5163.SLOTS = 0)
    simp
  · rw [iterateSlots_avery]
  · rw [iterateSlots_avery_vert]
    show ((n % Avery5163.SLOTS % Avery5163.SLOTS == 0) = true ↔ n % Avery5163.SLOTS = 0)
    simp [Nat.mod_mod_of_dvd]
  · rw [iterateSlots_avery_vert]

/-! ## `render_pdf` (`label_generation.py`, lines 58-114)

```python
def render_pdf(output_path, template, labels, skip, draw_outline):
    template.reset()
    canvas_obj = canvas.Canvas(output_path, pagesize=template.page_size)
    for _ in range(skip):
        template.next_label_geometry()
    first_page = True
    for label in labels:
        geometry = template.next_label_geometry()
        if geometry.on_new_page:
            if first_page: first_page = False
            else: canvas_obj.showPage()
        if geometry.width <= 0 or geometry.height <= 0:
            raise SystemError("Template produced non-positive geometry dimensions.")
        ...drawImage(..., geometry.left, geometry.bottom, geometry.width, geometry.height)...
```

The template is modelled by its geometry state machine
`next : σ → LabelGeometry × σ` (the rasterised label bytes play no role in
pagination).  The result records, per rendered label, whether `showPage` was
called before drawing it (`true` starts a new output page) and the geometry
it was drawn at; the degenerate-geometry `SystemError` is an `Except.error`. -/

/-- The `for _ in range(skip)` pre-advance. -/
def advanceSlots {σ : Type} (next : σ → LabelGeometry × σ) : ℕ → σ → σ
  | 0, s => s
  | k + 1, s => advanceSlots next k (next s).2

/-- The label loop of `render_pdf`: `first_page` is threaded exactly as in
the source. -/
def renderPdfGo {σ α : Type} (next : σ → LabelGeometry × σ) :
    List α → σ → Bool → Except String (List (Bool × LabelGeometry))
  | [], _, _ => .ok []
  | _ :: rest, s, first_page =>
    let g := (next s).1
    let show_page := g.on_new_page && !first_page
    let first_page2 := first_page && !g.on_new_page
    if g.width ≤ 0 ∨ g.height ≤ 0 then
      .error "Template produced non-positive geometry dimensions."
    else
      match renderPdfGo next rest (next s).2 first_page2 with
      | .ok t => .ok ((show_page, g) :: t)
      | .error e => .error e

/-- `render_pdf` (pagination behaviour): pre-advance `skip` slots from the
reset state, then run the label loop with `first_page = True`. -/
def render_pdf {σ α : Type} (next : σ → LabelGeometry × σ) (reset_state : σ)
    (labels : List α) (skip : ℕ) : Except String (List (Bool × LabelGeometry)) :=
  renderPdfGo next labels (advanceSlots next skip reset_state) true

theorem avery_geometry_dims (slot : ℕ) :
    ((Avery5163.next_label_geometry slot).1.width = Avery5163.LABEL_W ∧
     (Avery5163.next_label_geometry slot).1.height = Avery5163.LABEL_H) ∧
    ((Avery5163Vert.next_label_geometry slot).1.width = Avery5163.LABEL_W ∧
     (Avery5163Vert.next_label_geometry slot).1.height = Avery5163.LABEL_H) := by
  have hw : (0 : ℚ) ≤ Avery5163.LABEL_W := by norm_num [Avery5163.LABEL_W, Avery5163.inch]
  have hh : (0 : ℚ) ≤ Avery5163.LABEL_H := by norm_num [Avery5163.LABEL_H, Avery5163.inch]
  refine ⟨⟨?_, ?_⟩, ?_, ?_⟩ <;>
    simp [Avery5163.next_label_geometry, Avery5163Vert.next_label_geometry,
      LabelGeometry.width, LabelGeometry.height, hw, hh]

theorem renderPdfGo_avery_ok {α : Type} (labels : List α) (s : ℕ) (fp : Bool) :
    ∃ t, renderPdfGo Avery5163.next_label_geometry labels s fp = .ok t := by
  induction labels generalizing s fp with
  | nil => exact ⟨[], rfl⟩
  | cons a rest ih =>
      rcases ih (Avery5163.next_label_geometry s).2
        (fp && !(Avery5163.next_label_geometry s).1.on_new_page) with ⟨t, ht⟩
      refine ⟨((Avery5163.next_label_geometry s).1.on_new_page && !fp,
        (Avery5163.next_label_geometry s).1) :: t, ?_⟩
      rw [renderPdfGo, if_neg, ht]
      rw [((avery_geometry_dims s).1).1, ((avery_geometry_dims s).1).2]
      rintro (hc | hc)
      · exact absurd hc (by norm_num [Avery5163.LABEL_W, Avery5163.inch])
      · exact absurd hc (by norm_num [Avery5163.LABEL_H, Avery5163.inch])

/-- **C10.** Every geometry emitted by the Avery 5163 grid templates, from
any slot state, has width exactly `LABEL_W` and height exactly `LABEL_H`
(both strictly positive: `right = left + LABEL_W`, `top = bottom + LABEL_H`,
so the `max(·, 0)` clamps never fire), and consequently `render_pdf` driven
by this template never reaches its degenerate-geometry fatal branch, for any
label list and skip count. -/
theorem avery_geometry_nondegenerate :
    (∀ slot : ℕ,
      (Avery5163.next_label_geometry slot).1.width = Avery5163.LABEL_W ∧
      (Avery5163.next_label_geometry slot).1.height = Avery5163.LABEL_H ∧
      (Avery5163Vert.next_label_geometry slot).1.width = Avery5163.LABEL_W ∧
      (Avery5163Vert.next_label_geometry slot).1.height = Avery5163.LABEL_H) ∧
    (0 : ℚ) < Avery5163.LABEL_W ∧ (0 : ℚ) < Avery5163.LABEL_H ∧
    ∀ (labels : List Unit) (skip : ℕ),
      ∃ t, render_pdf Avery5163.next_label_geometry 0 labels skip = .ok t := by
  refine ⟨fun slot => ⟨((avery_geometry_dims slot).1).1, ((avery_geometry_dims slot).1).2,
      ((avery_geometry_dims slot).2).1, ((avery_geometry_dims slot).2).2⟩,
    by norm_num [Avery5163.LABEL_W, Avery5163.inch],
    by norm_num [Avery5163.LABEL_H, Avery5163.inch],
    fun labels skip => renderPdfGo_avery_ok labels _ true⟩

theorem renderPdfGo_nil {σ α : Type} (next : σ → LabelGeometry × σ) (s : σ) (fp : Bool) :
    renderPdfGo next ([] : List α) s fp = .ok [] := rfl

theorem renderPdfGo_avery_step {α : Type} (a : α) (rest : List α) (s : ℕ) (fp : Bool) :
    renderPdfGo Avery5163.next_label_geometry (a :: rest) s fp =
      match renderPdfGo Avery5163.next_label_geometry rest
          ((s + 1) % Avery5163.SLOTS) (fp && !(s == 0 : Bool)) with
      | .ok t => .ok (((s == 0 : Bool) && !fp, (Avery5163.next_label_geometry s).1) :: t)
      | .error e => .error e := by
  have hno : ¬((Avery5163.next_label_geometry s).1.width ≤ 0 ∨
      (Avery5163.next_label_geometry s).1.height ≤ 0) := by
    rw [((avery_geometry_dims s).1).1, ((avery_geometry_dims s).1).2]
    rintro (hc | hc)
    · exact absurd hc (by norm_num [Avery5163.LABEL_W, Avery5163.inch])
    · exact absurd hc (by norm_num [Avery5163.LABEL_H, Avery5163.inch])
  rw [renderPdfGo, if_neg hno]
  rfl

theorem avery_on_new_page (s : ℕ) :
    (Avery5163.next_label_geometry s).1.on_new_page = (s == 0 : Bool) := rfl

/-- **C4 (code bug witness evaluation).** Driving `render_pdf` with the
Avery 5163 template, `skip = 1` and 11 labels: no `showPage` ever happens
(all the page-break flags are `false`), even though the 10th label's
geometry reports `on_new_page = true` after 9 labels were already drawn —
and the 11th label is drawn at the same `(left, bottom)` position as the
1st, on the same output page.  The `first_page` flag only flips on the first
`on_new_page` geometry, so after a nonzero skip the wrap back to slot 0
does not start a new page. -/
theorem render_pdf_skip_page_break_bug :
    (render_pdf Avery5163.next_label_geometry 0 (List.replicate 11 ()) 1).map
        (fun t => t.map (fun e => (e.1, e.2.on_new_page))) =
      .ok [(false, false), (false, false), (false, false), (false, false),
           (false, false), (false, false), (false, false), (false, false),
           (false, false), (false, true), (false, false)] ∧
    (render_pdf Avery5163.next_label_geometry 0 (List.replicate 11 ()) 1).map
        (fun t => ((t.get? 0).map (fun e => (e.2.left, e.2.bottom)),
                   (t.get? 10).map (fun e => (e.2.left, e.2.bottom)))) =
      .ok (some (7794/25, 612), some (7794/25, 612)) := by
  have hrun : render_pdf Avery5163.next_label_geometry 0 (List.replicate 11 ()) 1 =
      .ok [(false, (Avery5163.next_label_geometry 1).1),
           (false, (Avery5163.next_label_geometry 2).1),
           (false, (Avery5163.next_label_geometry 3).1),
           (false, (Avery5163.next_label_geometry 4).1),
           (false, (Avery5163.next_label_geometry 5).1),
           (false, (Avery5163.next_label_geometry 6).1),
           (false, (Avery5163.next_label_geometry 7).1),
           (false, (Avery5163.next_label_geometry 8).1),
           (false, (Avery5163.next_label_geometry 9).1),
           (false, (Avery5163.next_label_geometry 0).1),
           (false, (Avery5163.next_label_geometry 1).1)] := by
    show renderPdfGo Avery5163.next_label_geometry (List.replicate 11 ())
        (advanceSlots Avery5163.next_label_geometry 1 0) true = _
    have hadv : advanceSlots Avery5163.next_label_geometry 1 0 = 1 := rfl
    rw [hadv]
    simp only [List.replicate, renderPdfGo_avery_step, renderPdfGo_nil, Avery5163.SLOTS,
      Avery5163.COLS, Avery5163.ROWS]
    norm_num
  rw [hrun]
  refine ⟨?_, ?_⟩
  · simp only [Except.map, List.map, avery_on_new_page]
    norm_num
  · simp only [Except.map, List.get?]
    norm_num [Avery5163.next_label_geometry, Avery5163.MARGIN_LEFT, Avery5163.LABEL_W,
      Avery5163.H_GAP, Avery5163.OFFSET_X, Avery5163.OFFSET_Y, Avery5163.MARGIN_TOP,
      Avery5163.LABEL_H, Avery5163.V_GAP, Avery5163.PAGE_SIZE, Avery5163.inch,
      Avery5163.COLS]

/-! ## `render` and `render_png` (`label_generation.py`, lines 15-55)

```python
def render(output_path, template, labels, skip, draw_outline):
    template.reset()
    if template.page_size:
        return render_pdf(output_path, template, labels, skip, draw_outline)
    if draw_outline:
        raise SystemExit("--draw-outline is not compatible with non-PDF templates.")
    if skip > 0:
        raise SystemExit("--skip is not compatible with non-PDF templates.")
    return render_png(output_path, template, labels)

def render_png(output_path, template, labels):
    output_path = output_path or "locations"
    template.reset()
    if len(labels) == 0:
        return "No labels matched the provided filters; no output generated."
    for i, label in enumerate(labels):
        png_bytes = template.render_label(label)
        png_name = f"{output_path}_{(i + 1):02d}.png"
        ...write...
    return f"Wrote ..."
```

The per-label raster bytes are irrelevant to the claims; the PNG mode is
modelled by the sequence of file names it writes. -/

/-- Python `f"{n:02d}"` for `n ≥ 0`: decimal, zero-padded to width 2. -/
def pad2 (n : ℕ) : String := if n < 10 then "0" ++ toString n else toString n

/-- The names written by `render_png`'s loop, starting at index `i`
(`f"{output_path}_{(i+1):02d}.png"`). -/
def pngNames {α : Type} (path : String) : ℕ → List α → List String
  | _, [] => []
  | i, _ :: rest => (path ++ "_" ++ pad2 (i + 1) ++ ".png") :: pngNames path (i + 1) rest

/-- Outcome of a render run, per output mode. -/
inductive RenderResult : Type where
  | pdfMode : RenderResult
  | noLabels : RenderResult
  | pngFiles : List String → RenderResult
deriving DecidableEq, Repr

/-- Python `output_path or "locations"` (both `None` and `""` are falsy). -/
def effectiveOutputPath (output_path : Option String) : String :=
  match output_path with
  | some p => if p = "" then "locations" else p
  | none => "locations"

/-- `render_png` (modelled by its file-name outputs). -/
def render_png {α : Type} (output_path : Option String) (labels : List α) : RenderResult :=
  if labels.length = 0 then .noLabels
  else .pngFiles (pngNames (effectiveOutputPath output_path) 0 labels)

/-- `render` from `label_generation.py`: dispatch on `page_size`, reject
`draw_outline` and `skip > 0` in the unpaged mode (in that order), else run
the PNG mode.  The paged branch delegates to `render_pdf`, modelled
separately. -/
def render {α : Type} (page_size : Option (ℚ × ℚ)) (output_path : Option String)
    (labels : List α) (skip : ℕ) (draw_outline : Bool) : Except String RenderResult :=
  match page_size with
  | some _ => .ok .pdfMode
  | none =>
    if draw_outline then
      .error "--draw-outline is not compatible with non-PDF templates."
    else if 0 < skip then
      .error "--skip is not compatible with non-PDF templates."
    else .ok (render_png output_path labels)

theorem pngNames_eq_range {α : Type} (path : String) (i : ℕ) (labels : List α) :
    pngNames path i labels =
      (List.range labels.length).map
        (fun j => path ++ "_" ++ pad2 (i + j + 1) ++ ".png") := by
  induction labels generalizing i with
  | nil => rfl
  | cons a rest ih =>
      show (path ++ "_" ++ pad2 (i + 1) ++ ".png") :: pngNames path (i + 1) rest = _
      rw [ih]
      show _ = (List.range (rest.length + 1)).map _
      rw [List.range_succ_eq_map, List.map_cons, List.map_map]
      refine congrArg₂ _ (by rw [Nat.add_zero]) ?_
      refine List.map_congr_left (fun j hj => ?_)
      show path ++ "_" ++ pad2 (i + 1 + j + 1) ++ ".png" =
        path ++ "_" ++ pad2 (i + (j + 1) + 1) ++ ".png"
      have : i + 1 + j = i + (j + 1) := by omega
      rw [this]

/-- **C9.** In unpaged mode (`page_size = None`): requesting the outline is
a fatal error for any skip count; requesting `skip > 0` without the outline
is a fatal error; and with neither requested the run succeeds, producing
(for a nonempty label list) one PNG per label whose names carry the 1-based,
zero-padded sequential suffix `_{i+1:02d}.png`. -/
theorem render_unpaged_spec {α : Type} (output_path : Option String) (labels : List α) :
    (∀ skip : ℕ, render none output_path labels skip true =
      .error "--draw-outline is not compatible with non-PDF templates.") ∧
    (∀ k : ℕ, render none output_path labels (k + 1) false =
      .error "--skip is not compatible with non-PDF templates.") ∧
    render none output_path labels 0 false =
      .ok (if labels.length = 0 then .noLabels
           else .pngFiles ((List.range labels.length).map
             (fun j => effectiveOutputPath output_path ++ "_" ++ pad2 (j + 1) ++ ".png"))) := by
  refine ⟨fun skip => rfl, fun k => ?_, ?_⟩
  · show (if (0 : ℕ) < k + 1 then _ else _) = _
    rw [if_pos (Nat.succ_pos k)]
  · show Except.ok (render_png output_path labels) = _
    unfold render_png
    by_cases hlen : labels.length = 0
    · rw [if_pos hlen, if_pos hlen]
    · rw [if_neg hlen, if_neg hlen, pngNames_eq_range]
      simp only [Nat.zero_add]

/-! ## P-Touch tape template (`label_templates/ptouch.py`, lines 18-58)

```python
LABEL_HEIGHT = 24 * mm
MAX_WIDTH = 100 * mm
MIN_WIDTH = 30 * mm
LABEL_PADDING = 1 * mm
_EMPTY_LABEL = LabelContent("", "", "")

def _compute_width(label: LabelContent) -> float:
    qr_size = LABEL_HEIGHT - 2 * LABEL_PADDING
    text_lines = [label.title.strip() or "", label.content.strip() or "",
                  label.categories_text.strip() or ""]
    font_cycle = [(title...,16), (content...,24), (label...,12)]
    text_widths = []
    for idx, line in enumerate(text_lines):
        if not line: text_widths.append(0.0); continue
        font_name, font_size = font_cycle[min(idx, len(font_cycle) - 1)]
        text_widths.append(stringWidth(line, font_name, font_size))
    desired_text_width = max(text_widths + [0]) + LABEL_PADDING
    required = LABEL_PADDING + qr_size + LABEL_PADDING + desired_text_width
    return min(max(required, MIN_WIDTH), MAX_WIDTH)
```

`ptouch.py` annotates and constructs `label` as `label_types.LabelContent`
(its own `_EMPTY_LABEL` at line 31), a frozen dataclass with fields `title`,
`content`, `url`, `location_id`, `path_text`, `labels_text`,
`description_text` — it has **no** `categories_text` attribute, so the
attribute access raises `AttributeError` before any arithmetic.  The record
shape the function body actually dereferences (`title`/`content`/
`categories_text`) is that of `label_content.py`'s `LabelContent`; the
numeric computation is modelled over that record. -/

/-- `LabelContent` from `label_types.py` (lines 6-17): the record the
pipeline passes to templates. -/
structure LabelContent where
  title : String
  content : String
  url : String
  location_id : String := ""
  path_text : String := ""
  labels_text : String := ""
  description_text : String := ""
deriving DecidableEq, Repr

/-- `LabelContent` from `label_content.py`: the record shape whose fields
`ptouch._compute_width` actually reads. -/
structure PtouchLabel where
  title : String
  content : String
  url : String
  path_text : String := ""
  categories_text : String := ""
deriving DecidableEq, Repr

/-- Python `str.strip()`: drop leading and trailing whitespace. -/
def pyStrip (s : String) : String :=
  String.mk (((s.data.dropWhile Char.isWhitespace).reverse.dropWhile
    Char.isWhitespace).reverse)

namespace Ptouch

/-- reportlab `mm`: `72 / 25.4` points. -/
def mm : ℚ := 72 / (254/10)
def LABEL_HEIGHT : ℚ := 24 * mm
def MAX_WIDTH : ℚ := 100 * mm
def MIN_WIDTH : ℚ := 30 * mm
def LABEL_PADDING : ℚ := 1 * mm
/-- `_FONTS` sizes in `ptouch.py`: title 16, content 24, label 12. -/
def TITLE_SIZE : ℚ := 16
def CONTENT_SIZE : ℚ := 24
def LABEL_SIZE : ℚ := 12

/-- The `max(text_widths + [0])` part of `_compute_width`: the width of the
widest candidate text line (`min(idx, 2) = idx` here since both lists have
three entries, so the cycle is a plain `zip`). -/
def _max_candidate_width (title_font content_font label_font : CharWidths)
    (label : PtouchLabel) : ℚ :=
  ((([pyStrip label.title, pyStrip label.content, pyStrip label.categories_text].zip
      [(title_font, TITLE_SIZE), (content_font, CONTENT_SIZE), (label_font, LABEL_SIZE)]).map
    (fun (p : String × (CharWidths × ℚ)) =>
      if p.1 = "" then 0 else stringWidth p.1 p.2.1 p.2.2) ++ [0]).max?).getD 0

/-- `_compute_width` (the numeric computation, over the record that has the
fields it reads). -/
def _compute_width (title_font content_font label_font : CharWidths)
    (label : PtouchLabel) : ℚ :=
  min
    (max
      (LABEL_PADDING + (LABEL_HEIGHT - 2 * LABEL_PADDING) + LABEL_PADDING +
        (_max_candidate_width title_font content_font label_font label + LABEL_PADDING))
      MIN_WIDTH)
    MAX_WIDTH

/-- `_compute_width` as called by the pipeline: on `label_types.LabelContent`
the access `label.categories_text` raises `AttributeError` (the dataclass has
no such field), whatever the label's contents. -/
def _compute_width_pipeline (label : LabelContent) : Except String ℚ :=
  .error "AttributeError: LabelContent object has no attribute categories_text"

end Ptouch

theorem ptouch_clamp_bounds (r : ℚ) :
    Ptouch.MIN_WIDTH ≤ min (max r Ptouch.MIN_WIDTH) Ptouch.MAX_WIDTH ∧
    min (max r Ptouch.MIN_WIDTH) Ptouch.MAX_WIDTH ≤ Ptouch.MAX_WIDTH := by
  constructor
  · refine le_min (le_max_right _ _) ?_
    norm_num [Ptouch.MIN_WIDTH, Ptouch.MAX_WIDTH, Ptouch.mm]
  · exact min_le_right _ _

/-- **C6.** `ptouch._compute_width`, applied to the `LabelContent` the
pipeline supplies (and that `ptouch.py` itself constructs as
`_EMPTY_LABEL`), raises `AttributeError` instead of returning a width; the
numeric computation it was meant to perform — modelled over the record that
has the fields it reads — does satisfy the claimed properties: the result
always lies in `[MIN_WIDTH, MAX_WIDTH]`, it is monotone in the measured
width of the widest candidate line, and a label with all candidate text
fields empty yields exactly `MIN_WIDTH`. -/
theorem ptouch_compute_width_spec (title_font content_font label_font : CharWidths) :
    Ptouch._compute_width_pipeline { title := "", content := "", url := "" } =
      .error "AttributeError: LabelContent object has no attribute categories_text" ∧
    (∀ label : PtouchLabel,
      Ptouch.MIN_WIDTH ≤ Ptouch._compute_width title_font content_font label_font label ∧
      Ptouch._compute_width title_font content_font label_font label ≤ Ptouch.MAX_WIDTH) ∧
    Ptouch._compute_width title_font content_font label_font
      { title := "", content := "", url := "" } = Ptouch.MIN_WIDTH ∧
    (∀ l1 l2 : PtouchLabel,
      Ptouch._max_candidate_width title_font content_font label_font l1 ≤
        Ptouch._max_candidate_width title_font content_font label_font l2 →
      Ptouch._compute_width title_font content_font label_font l1 ≤
        Ptouch._compute_width title_font content_font label_font l2) := by
  refine ⟨rfl, fun label => ptouch_clamp_bounds _, ?_, fun l1 l2 h12 => ?_⟩
  · have hcand : Ptouch._max_candidate_width title_font content_font label_font
        { title := "", content := "", url := "" } = 0 := by
      norm_num +decide [Ptouch._max_candidate_width, pyStrip, List.max?]
    unfold Ptouch._compute_width
    rw [hcand]
    norm_num [Ptouch.LABEL_PADDING, Ptouch.LABEL_HEIGHT, Ptouch.MIN_WIDTH,
      Ptouch.MAX_WIDTH, Ptouch.mm, max_def, min_def]
  · unfold Ptouch._compute_width
    gcongr

/-! ## Template options (`label_templates/base.py` lines 59-62,
`label_templates/avery5163.py` lines 301-307 and 336-341)

```python
class LabelTemplate(ABC):
    def apply_options(self, selections):     # base.py: the default
        return None

class Template(LabelTemplate):               # legacy avery5163.py module
    _DEFAULT_ORIENTATION = "horizontal"
    def apply_options(self, selections):
        orientation = (selections.get("orientation") or self._DEFAULT_ORIENTATION).lower()
        if orientation not in {"horizontal", "vertical"}:
            raise ValueError("Invalid orientation option. ...")
        self._default_orientation = orientation

    def _resolve_orientation(self, content):
        options = content.template_options or {}
        orientation = (options.get("orientation") or self._default_orientation).lower()
        if orientation not in {"horizontal", "vertical"}:
            orientation = self._default_orientation
        return orientation
```

The template the loader actually serves for "5163" is the *package*
`label_templates/avery5163/` (a package shadows the same-named module), whose
`Template` does not override `apply_options` and therefore inherits the
base-class no-op; its per-label option resolution
(`_orientation_for_label`) likewise falls back to the default on an
unrecognised value.  Selections (a Python dict) are modelled as an
association list; `dict.get` is the first matching key. -/

/-- The geometry constants a grid template is configured by. -/
structure GridConfig where
  margin_left : ℚ
  margin_right : ℚ
  margin_top : ℚ
  margin_bottom : ℚ
  label_w : ℚ
  label_h : ℚ
  h_gap : ℚ
  v_gap : ℚ
  page_w : ℚ
  page_h : ℚ
  cols : ℕ
  rows : ℕ
deriving DecidableEq, Repr

/-- The constants of both Avery 5163 template files. -/
def averyConfig : GridConfig where
  margin_left := Avery5163.MARGIN_LEFT
  margin_right := Avery5163.MARGIN_RIGHT
  margin_top := Avery5163.MARGIN_TOP
  margin_bottom := Avery5163.MARGIN_BOTTOM
  label_w := Avery5163.LABEL_W
  label_h := Avery5163.LABEL_H
  h_gap := Avery5163.H_GAP
  v_gap := Avery5163.V_GAP
  page_w := Avery5163.PAGE_SIZE.1
  page_h := Avery5163.PAGE_SIZE.2
  cols := Avery5163.COLS
  rows := Avery5163.ROWS

/-- The constants of `homebox_locations.py` (lines 28-49): `letter` page,
`INCH_PT = 72`, and the same margins/labels/gaps as the template files. -/
def homeboxLocationsConfig : GridConfig where
  margin_left := (17/100) * 72
  margin_right := (17/100) * 72
  margin_top := (1/2) * 72
  margin_bottom := (1/2) * 72
  label_w := 4 * 72
  label_h := 2 * 72
  h_gap := (16/100) * 72
  v_gap := 0 * 72
  page_w := (85/10) * 72
  page_h := 11 * 72
  cols := 2
  rows := 5

/-- The width sanity identity the spec describes, exactly:
`margin_left + cols*label_w + (cols-1)*h_gap + margin_right = page_width`. -/
def width_sane (c : GridConfig) : Bool :=
  c.margin_left + (c.cols : ℚ) * c.label_w + ((c.cols : ℚ) - 1) * c.h_gap +
    c.margin_right == c.page_w

/-- The analogous height identity, exactly. -/
def height_sane (c : GridConfig) : Bool :=
  c.margin_top + (c.rows : ℚ) * c.label_h + ((c.rows : ℚ) - 1) * c.v_gap +
    c.margin_bottom == c.page_h

/-- `Template.__init__` of both Avery 5163 template files: sets
`slot_index = 0`; it performs no check and cannot raise, whatever the
configuration constants say. -/
def gridTemplateConstruct (c : GridConfig) : Except String ℕ := .ok 0

/-- The sanity check of `homebox_locations.py`'s `template()` (lines
522-531), run at the start of a render before any label is drawn: each
total is asserted to match the page dimension within `0.01` pt, a failed
assert being a fatal `AssertionError` (width first, then height). -/
def homebox_locations_template_check (c : GridConfig) : Except String Unit :=
  if |c.margin_left + (c.cols : ℚ) * c.label_w + ((c.cols : ℚ) - 1) * c.h_gap +
      c.margin_right - c.page_w| < 1/100 then
    if |c.margin_bottom + (c.rows : ℚ) * c.label_h + ((c.rows : ℚ) - 1) * c.v_gap +
        c.margin_top - c.page_h| < 1/100 then
      .ok ()
    else .error "Height mismatch"
  else .error "Width mismatch"

/-- **C8 (amended).** The spec's sanity check is implemented not at grid
`Template` construction — the constructors only zero the slot index and
never raise — but at the start of a render run in the legacy grid path:
`homebox_locations.py`'s `template()`, called by `render_label_pdf` before
any label is drawn, asserts both identities within a `0.01` pt tolerance and
fails fatally on mismatch (the check passes iff both residuals are below the
tolerance).  The configured constants satisfy both identities exactly
(`0.17in + 2*4in + 1*0.16in + 0.17in = 8.5in = 612pt` and
`0.5in + 5*2in + 4*0in + 0.5in = 11in = 792pt`), so the check passes. -/
theorem grid_construction_sanity :
    (∀ c : GridConfig, gridTemplateConstruct c = .ok 0) ∧
    homebox_locations_template_check homeboxLocationsConfig = .ok () ∧
    (∀ c : GridConfig,
      homebox_locations_template_check c = .ok () ↔
        (|c.margin_left + (c.cols : ℚ) * c.label_w + ((c.cols : ℚ) - 1) * c.h_gap +
            c.margin_right - c.page_w| < 1/100 ∧
         |c.margin_bottom + (c.rows : ℚ) * c.label_h + ((c.rows : ℚ) - 1) * c.v_gap +
            c.margin_top - c.page_h| < 1/100)) ∧
    width_sane homeboxLocationsConfig = true ∧
    height_sane homeboxLocationsConfig = true := by
  refine ⟨fun c => rfl, ?_, fun c => ?_, ?_, ?_⟩
  · rw [homebox_locations_template_check,
      if_pos (by norm_num [homeboxLocationsConfig, abs_lt]),
      if_pos (by norm_num [homeboxLocationsConfig, abs_lt])]
  · unfold homebox_locations_template_check
    by_cases h1 : |c.margin_left + (c.cols : ℚ) * c.label_w +
        ((c.cols : ℚ) - 1) * c.h_gap + c.margin_right - c.page_w| < 1/100
    · by_cases h2 : |c.margin_bottom + (c.rows : ℚ) * c.label_h +
          ((c.rows : ℚ) - 1) * c.v_gap + c.margin_top - c.page_h| < 1/100
      · rw [if_pos h1, if_pos h2]
        exact ⟨fun _ => ⟨h1, h2⟩, fun _ => rfl⟩
      · rw [if_pos h1, if_neg h2]
        exact ⟨fun h => absurd h (by simp), fun h => absurd h.2 h2⟩
    · rw [if_neg h1]
      exact ⟨fun h => absurd h (by simp), fun h => absurd h.1 h1⟩
  · rw [width_sane, beq_iff_eq]
    norm_num [homeboxLocationsConfig]
  · rw [height_sane, beq_iff_eq]
    norm_num [homeboxLocationsConfig]

/-- **C8 counterexample.** A configuration violating the width identity
(margin_left bumped to 999) still *constructs* successfully — the template
constructors perform no check, so a mismatch is not a construction-time
error as claimed — while the legacy run-start check is what rejects
exactly that configuration. -/
theorem grid_construction_counterexample :
    gridTemplateConstruct { homeboxLocationsConfig with margin_left := 999 } = .ok 0 ∧
    width_sane { homeboxLocationsConfig with margin_left := 999 } = false ∧
    homebox_locations_template_check { homeboxLocationsConfig with margin_left := 999 } =
      .error "Width mismatch" := by
  refine ⟨rfl, ?_, ?_⟩
  · rw [width_sane, beq_eq_false_iff_ne, ne_eq]
    norm_num [homeboxLocationsConfig]
  · rw [homebox_locations_template_check,
      if_neg (by norm_num [homeboxLocationsConfig, abs_lt])]
